import Mathlib

/-!
Verification development for the analytics-service aggregation core
(utils/dataAggregator.js, utils/scheduler.js, controllers/metricsController.js).

Modelling conventions:
- Instants are integers counting milliseconds since the Unix epoch (JS Date
  values).  The service runs its cron jobs in UTC and the specification
  normalizes all windows to UTC, so moment's startOf/endOf calls are embedded
  as UTC calendar arithmetic.  Lean's `/` and `%` on Int are Euclidean
  division/remainder, which coincide with floor division/remainder for the
  positive divisors used here.
- JS numbers that carry statistics (averages, medians, rates) are embedded as
  rationals; all sample values arising in the aggregator are exact in IEEE
  doubles at these magnitudes, so rational arithmetic is faithful.
- Mongo aggregation pipelines are embedded as list filters and group-by
  folds over an explicit event list; a `$group` stage yields one row per
  distinct key, holding only the `_id` and the accumulated fields.
- Fallible code is embedded with Option/Except; a thrown JS exception is an
  `Except.error`.
-/

/- ## Period calculator: DataAggregator._calculatePeriodDates -/

def msPerDay : ℤ := 86400000

def msPerWeek : ℤ := 604800000

/-- moment(t).startOf(day): truncate to the most recent midnight. -/
def startOfDay (t : ℤ) : ℤ := t - t % msPerDay

/-- moment(t).endOf(day): the final millisecond of the day (23:59:59.999). -/
def endOfDay (t : ℤ) : ℤ := startOfDay t + msPerDay - 1

/-- Day of week of instant t, 0 = Sunday (moment default locale).
The epoch day 1970-01-01 was a Thursday (= 4). -/
def dayOfWeek (t : ℤ) : ℤ := (t / msPerDay + 4) % 7

/-- moment(t).startOf(week): midnight of the most recent Sunday. -/
def startOfWeek (t : ℤ) : ℤ := startOfDay t - dayOfWeek t * msPerDay

/-- moment(t).endOf(week): final millisecond of the Saturday of t's week. -/
def endOfWeek (t : ℤ) : ℤ := startOfWeek t + msPerWeek - 1

/-- Proleptic Gregorian conversion from a day number (days since epoch) to
(year, month, day); embeds the calendar arithmetic behind moment's
startOf(month)/startOf(quarter)/startOf(year). -/
def civilFromDays (z : ℤ) : ℤ × ℤ × ℤ :=
  let z' := z + 719468
  let era := z' / 146097
  let doe := z' % 146097
  let yoe := (doe - doe / 1460 + doe / 36524 - doe / 146096) / 365
  let doy := doe - (365 * yoe + yoe / 4 - yoe / 100)
  let mp := (5 * doy + 2) / 153
  let d := doy - (153 * mp + 2) / 5 + 1
  let m := if mp < 10 then mp + 3 else mp - 9
  (yoe + era * 400 + (if m ≤ 2 then 1 else 0), m, d)

/-- Inverse Gregorian conversion: day number of a calendar date. -/
def daysFromCivil (y m d : ℤ) : ℤ :=
  let y' := if m ≤ 2 then y - 1 else y
  let era := y' / 400
  let yoe := y' - era * 400
  let doy := (153 * (if m > 2 then m - 3 else m + 9) + 2) / 5 + d - 1
  let doe := yoe * 365 + yoe / 4 - yoe / 100 + doy
  era * 146097 + doe - 719468

/-- moment(t).startOf(month). -/
def startOfMonth (t : ℤ) : ℤ :=
  let c := civilFromDays (t / msPerDay)
  daysFromCivil c.1 c.2.1 1 * msPerDay

/-- moment(t).endOf(month): final millisecond of the month. -/
def endOfMonth (t : ℤ) : ℤ :=
  let c := civilFromDays (t / msPerDay)
  let ny := if c.2.1 = 12 then c.1 + 1 else c.1
  let nm := if c.2.1 = 12 then 1 else c.2.1 + 1
  daysFromCivil ny nm 1 * msPerDay - 1

/-- First month (1, 4, 7 or 10) of the calendar quarter containing month m. -/
def quarterStartMonth (m : ℤ) : ℤ := m - (m - 1) % 3

/-- moment(t).startOf(quarter). -/
def startOfQuarter (t : ℤ) : ℤ :=
  let c := civilFromDays (t / msPerDay)
  daysFromCivil c.1 (quarterStartMonth c.2.1) 1 * msPerDay

/-- moment(t).endOf(quarter): final millisecond of the quarter. -/
def endOfQuarter (t : ℤ) : ℤ :=
  let c := civilFromDays (t / msPerDay)
  let qm := quarterStartMonth c.2.1
  let ny := if qm = 10 then c.1 + 1 else c.1
  let nm := if qm = 10 then 1 else qm + 3
  daysFromCivil ny nm 1 * msPerDay - 1

/-- moment(t).startOf(year). -/
def startOfYear (t : ℤ) : ℤ :=
  let c := civilFromDays (t / msPerDay)
  daysFromCivil c.1 1 1 * msPerDay

/-- moment(t).endOf(year): final millisecond of December 31. -/
def endOfYear (t : ℤ) : ℤ :=
  let c := civilFromDays (t / msPerDay)
  daysFromCivil (c.1 + 1) 1 1 * msPerDay - 1

/-- DataAggregator._calculatePeriodDates(period, date): switch over the
period kind; `t` is the reference date argument and `now` the clock reading
taken by `new Date()` in the all_time branch.  The default branch throws
(`Invalid period`), embedded as `none`. -/
def calculatePeriodDates (period : String) (t now : ℤ) : Option (ℤ × ℤ) :=
  if period = "daily" then some (startOfDay t, endOfDay t)
  else if period = "weekly" then some (startOfWeek t, endOfWeek t)
  else if period = "monthly" then some (startOfMonth t, endOfMonth t)
  else if period = "quarterly" then some (startOfQuarter t, endOfQuarter t)
  else if period = "yearly" then some (startOfYear t, endOfYear t)
  else if period = "all_time" then some (0, now)
  else none

/- ## Raw events and Mongo pipeline embedding -/

/-- The eventData payload fields read by the aggregation pipelines.
Fields used as Mongo group keys are Option (a missing field groups under a
null id); fields only consumed numerically (createdAt, score,
sessionDuration) are total, restricting the event space to payloads where
the producing service supplied them. -/
structure EventData where
  status : Option String := none
  priority : Option String := none
  categoryId : Option String := none
  createdAt : ℤ := 0
  score : ℚ := 0
  escalationLevel : Option ℤ := none
  commentType : Option String := none
  channel : Option String := none
  sessionDuration : ℚ := 0
  role : Option String := none
deriving Repr, DecidableEq

/-- A document of the analyticsevents collection (models/analyticsEvent.js),
restricted to the fields the aggregator reads. -/
structure AnalyticsEvent where
  sourceService : String
  eventType : String
  eventData : EventData := {}
  userId : Option String := none
  companyId : Option String := none
  timestamp : ℤ
deriving Repr, DecidableEq

/-- The match criteria built by aggregateFeedbackMetrics /
aggregateUserMetrics: sourceService equality, timestamp in
[startDate, endDate) ($gte/$lt), and companyId equality when a company
scope is given. -/
def matchesWindow (svc : String) (startDate endDate : ℤ) (companyId : Option String)
    (e : AnalyticsEvent) : Bool :=
  e.sourceService == svc && decide (startDate ≤ e.timestamp) && decide (e.timestamp < endDate) &&
    (match companyId with
     | some c => e.companyId == some c
     | none => true)

/-- Distinct group keys of a list, in first-occurrence order (a Mongo $group
emits one output document per distinct key). -/
def groupKeys {β α : Type} [BEq α] (key : β → α) (rows : List β) : List α :=
  rows.foldl (fun acc r => if acc.contains (key r) then acc else acc ++ [key r]) []

/-- One output row of a counting $group stage: the group id and $sum: 1. -/
structure GroupRow (α : Type) where
  id : α
  count : ℕ
deriving Repr, DecidableEq

/-- $group by `key` with count: { $sum: 1 }. -/
def groupCount {β α : Type} [BEq α] (key : β → α) (rows : List β) : List (GroupRow α) :=
  (groupKeys key rows).map fun k => { id := k, count := (rows.filter (fun r => key r == k)).length }

/-- Output row of the statusCounts pipeline.  The $group stage projects only
the `_id` (the event type) and the count, so the row carries no eventData:
the field is present in the record type because _processFeedbackMetrics
reads `item.eventData?.status`, but the pipeline always leaves it `none`
(reading an absent JS property yields undefined). -/
structure StatusGroupRow where
  id : String
  count : ℕ
  eventData : Option EventData
deriving Repr, DecidableEq

/-- Output row of the $group over response/resolution times: $avg, $min,
$max and $push of the duration samples. -/
structure TimesGroup where
  average : ℚ
  min : ℚ
  max : ℚ
  values : List ℚ
deriving Repr, DecidableEq

/-- Output row of the satisfaction $group: $avg, count and $push of scores. -/
structure SatisfactionGroupRow where
  average : ℚ
  count : ℕ
  scores : List ℚ
deriving Repr, DecidableEq

/-- Output row of the notificationMetrics $group (id = eventType × channel). -/
structure NotificationRow where
  eventType : String
  channel : Option String
  count : ℕ
deriving Repr, DecidableEq

/-- Output row of the second userEngagement $group stage. -/
structure EngagementRow where
  id : String
  uniqueUsers : ℕ
  totalCount : ℕ
deriving Repr, DecidableEq

/-- Output row of the second loginActivity $group stage. -/
structure LoginActivityRow where
  uniqueUsers : ℕ
  totalLogins : ℕ
  sessionDurations : List (List ℚ)
deriving Repr, DecidableEq

/-- Sum of a list of rationals ($avg numerator / reduce((s, d) => s + d)). -/
def listSum (l : List ℚ) : ℚ := l.foldl (· + ·) 0

/-- The single $group row over a non-empty sample list ($avg/$min/$max/$push);
an empty input produces no group at all. -/
def timesGroupOf (samples : List ℚ) : Option TimesGroup :=
  match samples with
  | [] => none
  | v :: rest =>
    some { average := listSum samples / samples.length,
           min := rest.foldl Min.min v,
           max := rest.foldl Max.max v,
           values := samples }

/- ## Feedback-metrics pipelines (aggregateFeedbackMetrics) -/

def feedbackWindowEvents (events : List AnalyticsEvent) (startDate endDate : ℤ)
    (companyId : Option String) : List AnalyticsEvent :=
  events.filter (matchesWindow "feedback" startDate endDate companyId)

/-- statusCounts pipeline: filter to the four status-transition event types,
group by eventType.  The group rows expose no eventData. -/
def statusCountsOf (es : List AnalyticsEvent) : List StatusGroupRow :=
  (groupCount (fun e => e.eventType)
      (es.filter (fun e =>
        ["feedback.created", "feedback.updated", "feedback.resolved", "feedback.closed"].contains
          e.eventType))).map
    fun r => { id := r.id, count := r.count, eventData := none }

/-- priorityCounts pipeline: feedback.created events grouped by payload priority. -/
def priorityCountsOf (es : List AnalyticsEvent) : List (GroupRow (Option String)) :=
  groupCount (fun e => e.eventData.priority) (es.filter (fun e => e.eventType == "feedback.created"))

/-- categoryCounts pipeline: feedback.created events grouped by payload categoryId. -/
def categoryCountsOf (es : List AnalyticsEvent) : List (GroupRow (Option String)) :=
  groupCount (fun e => e.eventData.categoryId) (es.filter (fun e => e.eventType == "feedback.created"))

/-- responseTimes $project stage: timestamp minus payload createdAt. -/
def responseTimeSamples (es : List AnalyticsEvent) : List ℚ :=
  (es.filter (fun e => e.eventType == "feedback.responded")).map
    fun e => ((e.timestamp - e.eventData.createdAt : ℤ) : ℚ)

def responseTimesOf (es : List AnalyticsEvent) : Option TimesGroup :=
  timesGroupOf (responseTimeSamples es)

def resolutionTimeSamples (es : List AnalyticsEvent) : List ℚ :=
  (es.filter (fun e => e.eventType == "feedback.resolved")).map
    fun e => ((e.timestamp - e.eventData.createdAt : ℤ) : ℚ)

def resolutionTimesOf (es : List AnalyticsEvent) : Option TimesGroup :=
  timesGroupOf (resolutionTimeSamples es)

/-- satisfactionScores pipeline: $avg, count and $push over payload scores. -/
def satisfactionScoresOf (es : List AnalyticsEvent) : Option SatisfactionGroupRow :=
  let scores := (es.filter (fun e => e.eventType == "feedback.satisfaction")).map
    fun e => e.eventData.score
  match scores with
  | [] => none
  | _ :: _ =>
    some { average := listSum scores / scores.length, count := scores.length, scores := scores }

/-- escalationData pipeline: feedback.escalated grouped by payload escalationLevel. -/
def escalationDataOf (es : List AnalyticsEvent) : List (GroupRow (Option ℤ)) :=
  groupCount (fun e => e.eventData.escalationLevel)
    (es.filter (fun e => e.eventType == "feedback.escalated"))

/-- commentData pipeline: feedback.commented grouped by payload commentType. -/
def commentDataOf (es : List AnalyticsEvent) : List (GroupRow (Option String)) :=
  groupCount (fun e => e.eventData.commentType)
    (es.filter (fun e => e.eventType == "feedback.commented"))

/- ## _processFeedbackMetrics -/

structure FeedbackCounts where
  total : ℕ := 0
  new : ℕ := 0
  inProgress : ℕ := 0
  resolved : ℕ := 0
  closed : ℕ := 0
deriving Repr, DecidableEq

/-- The statusCounts.forEach body: the in-progress branch additionally tests
`item.eventData?.status`, a field the $group output never carries. -/
def applyStatusRow (c : FeedbackCounts) (item : StatusGroupRow) : FeedbackCounts :=
  if item.id == "feedback.created" then { c with total := item.count, new := item.count }
  else if item.id == "feedback.updated" &&
      ((item.eventData.bind fun d => d.status) == some "in_progress") then
    { c with inProgress := item.count }
  else if item.id == "feedback.resolved" then { c with resolved := item.count }
  else if item.id == "feedback.closed" then { c with closed := item.count }
  else c

structure PriorityCounts where
  low : ℕ := 0
  medium : ℕ := 0
  high : ℕ := 0
  critical : ℕ := 0
deriving Repr, DecidableEq

/-- The priorityCounts.forEach body (`item._id && byPriority.hasOwnProperty(item._id)`:
a null or empty-string id, or one outside the four fixed keys, is skipped). -/
def applyPriorityRow (p : PriorityCounts) (item : GroupRow (Option String)) : PriorityCounts :=
  match item.id with
  | some "low" => { p with low := item.count }
  | some "medium" => { p with medium := item.count }
  | some "high" => { p with high := item.count }
  | some "critical" => { p with critical := item.count }
  | _ => p

/-- Association-list write: byCategory[key] = value. -/
def setAssoc (m : List (String × ℕ)) (k : String) (v : ℕ) : List (String × ℕ) :=
  if m.any (fun p => p.1 == k) then m.map (fun p => if p.1 == k then (k, v) else p)
  else m ++ [(k, v)]

/-- The categoryCounts.forEach body (a null id — and, by JS truthiness, an
empty string — is skipped). -/
def applyCategoryRow (m : List (String × ℕ)) (item : GroupRow (Option String)) :
    List (String × ℕ) :=
  match item.id with
  | some c => if c == "" then m else setAssoc m c item.count
  | none => m

structure TimeMetrics where
  average : ℚ := 0
  median : ℚ := 0
  min : ℚ := 0
  max : ℚ := 0
  percentile95 : ℚ := 0
deriving Repr, DecidableEq

/-- JS values.sort((a, b) => a - b): ascending numeric sort. -/
def sortAsc (l : List ℚ) : List ℚ := l.insertionSort (· ≤ ·)

/-- The median computation of _processFeedbackMetrics: mid = floor(n / 2);
average of the two middle values for even n, the middle value for odd n. -/
def medianOfSorted (values : List ℚ) : ℚ :=
  let mid := values.length / 2
  if values.length % 2 == 0 then (values.getD (mid - 1) 0 + values.getD mid 0) / 2
  else values.getD mid 0

/-- The p95 index Math.ceil(n * 0.95) - 1.  For n below 2^50 the IEEE-double
product n * 0.95 ceils exactly like the rational 19n/20, and
ceil(19n/20) = (19n + 19) / 20 in natural division. -/
def p95Index (n : ℕ) : ℕ := (19 * n + 19) / 20 - 1

/-- The response/resolution-time block of _processFeedbackMetrics: all-zero
defaults when the pipeline produced no group, otherwise sort the pushed
values and fill average/min/max (with the JS `|| 0` falsy-default), median
and 95th percentile. -/
def processTimes : Option TimesGroup → TimeMetrics
  | none => {}
  | some g =>
    let values := sortAsc g.values
    { average := g.average, min := g.min, max := g.max,
      median := medianOfSorted values,
      percentile95 := values.getD (p95Index values.length) 0 }

/-- The full distribution-stats reducer as seen from a raw sample list: the
Mongo group (absent when the sample list is empty) followed by processTimes. -/
def distributionStats (samples : List ℚ) : TimeMetrics :=
  processTimes (timesGroupOf samples)

/-- satisfaction.distribution: fixed keys 1-5 (starN embeds the numeric JS
key N). -/
structure SatDistribution where
  star1 : ℕ := 0
  star2 : ℕ := 0
  star3 : ℕ := 0
  star4 : ℕ := 0
  star5 : ℕ := 0
deriving Repr, DecidableEq

/-- The scores.forEach body: increment the bucket when the score is one of
the keys 1-5 (hasOwnProperty check), else skip. -/
def applyScore (d : SatDistribution) (score : ℚ) : SatDistribution :=
  if score == 1 then { d with star1 := d.star1 + 1 }
  else if score == 2 then { d with star2 := d.star2 + 1 }
  else if score == 3 then { d with star3 := d.star3 + 1 }
  else if score == 4 then { d with star4 := d.star4 + 1 }
  else if score == 5 then { d with star5 := d.star5 + 1 }
  else d

structure SatisfactionMetrics where
  average : ℚ := 0
  count : ℕ := 0
  distribution : SatDistribution := {}
deriving Repr, DecidableEq

/-- escalations.byLevel: fixed keys 1-3. -/
structure EscalationLevels where
  level1 : ℕ := 0
  level2 : ℕ := 0
  level3 : ℕ := 0
deriving Repr, DecidableEq

structure EscalationMetrics where
  count : ℕ := 0
  percentage : ℚ := 0
  byLevel : EscalationLevels := {}
deriving Repr, DecidableEq

/-- The escalationData.forEach body: accumulate the total and fill the fixed
levels 1-3 (`item._id && hasOwnProperty(item._id)`). -/
def applyEscalationRow (e : EscalationMetrics) (item : GroupRow (Option ℤ)) : EscalationMetrics :=
  let e := { e with count := e.count + item.count }
  match item.id with
  | some 1 => { e with byLevel := { e.byLevel with level1 := item.count } }
  | some 2 => { e with byLevel := { e.byLevel with level2 := item.count } }
  | some 3 => { e with byLevel := { e.byLevel with level3 := item.count } }
  | _ => e

structure CommentMetrics where
  total : ℕ := 0
  average : ℚ := 0
  internal : ℕ := 0
  external : ℕ := 0
deriving Repr, DecidableEq

/-- The commentData.forEach body. -/
def applyCommentRow (c : CommentMetrics) (item : GroupRow (Option String)) : CommentMetrics :=
  let c := { c with total := c.total + item.count }
  match item.id with
  | some "internal" => { c with internal := item.count }
  | some "external" => { c with external := item.count }
  | _ => c

/-- The metrics object returned by _processFeedbackMetrics (the body of a
FeedbackMetrics document minus its key fields and calculatedAt). -/
structure FeedbackMetricsBody where
  counts : FeedbackCounts
  byPriority : PriorityCounts
  byCategory : List (String × ℕ)
  responseTimes : TimeMetrics
  resolutionTimes : TimeMetrics
  satisfaction : SatisfactionMetrics
  escalations : EscalationMetrics
  comments : CommentMetrics
deriving Repr, DecidableEq

/-- DataAggregator._processFeedbackMetrics. -/
def processFeedbackMetrics (statusCounts : List StatusGroupRow)
    (priorityCounts categoryCounts : List (GroupRow (Option String)))
    (responseTimes resolutionTimes : Option TimesGroup)
    (satisfactionScores : Option SatisfactionGroupRow)
    (escalationData : List (GroupRow (Option ℤ)))
    (commentData : List (GroupRow (Option String))) : FeedbackMetricsBody :=
  let counts := statusCounts.foldl applyStatusRow {}
  let byPriority := priorityCounts.foldl applyPriorityRow {}
  let byCategory := categoryCounts.foldl applyCategoryRow []
  let responseTimeMetrics := processTimes responseTimes
  let resolutionTimeMetrics := processTimes resolutionTimes
  let satisfaction : SatisfactionMetrics :=
    match satisfactionScores with
    | none => {}
    | some s =>
      { average := s.average, count := s.count, distribution := s.scores.foldl applyScore {} }
  let escalations0 := escalationData.foldl applyEscalationRow {}
  let escalations :=
    { escalations0 with
      percentage :=
        if counts.total > 0 then (escalations0.count : ℚ) / (counts.total : ℚ) * 100 else 0 }
  let comments0 := commentData.foldl applyCommentRow {}
  let comments :=
    { comments0 with
      average := if counts.total > 0 then (comments0.total : ℚ) / (counts.total : ℚ) else 0 }
  { counts := counts, byPriority := byPriority, byCategory := byCategory,
    responseTimes := responseTimeMetrics, resolutionTimes := resolutionTimeMetrics,
    satisfaction := satisfaction, escalations := escalations, comments := comments }

/-- The feedback-metrics body computed from the raw event list for a window
and company scope (the pipeline calls of aggregateFeedbackMetrics followed
by _processFeedbackMetrics). -/
def feedbackMetricsOf (events : List AnalyticsEvent) (startDate endDate : ℤ)
    (companyId : Option String) : FeedbackMetricsBody :=
  let es := feedbackWindowEvents events startDate endDate companyId
  processFeedbackMetrics (statusCountsOf es) (priorityCountsOf es) (categoryCountsOf es)
    (responseTimesOf es) (resolutionTimesOf es) (satisfactionScoresOf es)
    (escalationDataOf es) (commentDataOf es)

/- ## User-metrics pipelines (aggregateUserMetrics) -/

def userWindowEvents (events : List AnalyticsEvent) (startDate endDate : ℤ)
    (companyId : Option String) : List AnalyticsEvent :=
  events.filter (matchesWindow "user" startDate endDate companyId)

def userCountsOf (es : List AnalyticsEvent) : List (GroupRow String) :=
  groupCount (fun e => e.eventType)
    (es.filter (fun e => ["user.created", "user.login", "user.active"].contains e.eventType))

def roleCountsOf (es : List AnalyticsEvent) : List (GroupRow (Option String)) :=
  groupCount (fun e => e.eventData.role) (es.filter (fun e => e.eventType == "user.created"))

/-- loginActivity pipeline: group user.login by userId (count + pushed
session durations), then a second group producing the distinct-user count,
total logins, and the per-user duration lists. -/
def loginActivityOf (es : List AnalyticsEvent) : Option LoginActivityRow :=
  let logins := es.filter (fun e => e.eventType == "user.login")
  let users := groupKeys (fun e => e.userId) logins
  match logins with
  | [] => none
  | _ :: _ =>
    some { uniqueUsers := users.length,
           totalLogins := logins.length,
           sessionDurations := users.map fun u =>
             (logins.filter (fun e => e.userId == u)).map fun e => e.eventData.sessionDuration }

/-- userEngagement pipeline: group by (userId, eventType), then regroup by
eventType counting distinct users and summing the per-user counts. -/
def userEngagementOf (es : List AnalyticsEvent) : List EngagementRow :=
  let fes := es.filter (fun e =>
    ["feedback.created", "feedback.commented", "feedback.responded", "feedback.resolved"].contains
      e.eventType)
  let firstStage := groupCount (fun e => (e.userId, e.eventType)) fes
  (groupKeys (fun r => r.id.2) firstStage).map fun t =>
    { id := t,
      uniqueUsers := (firstStage.filter (fun r => r.id.2 == t)).length,
      totalCount := ((firstStage.filter (fun r => r.id.2 == t)).map (fun r => r.count)).sum }

/-- notificationMetrics pipeline: the spread `{ ...matchCriteria,
sourceService: notification }` overrides the source service, so this filter
runs over the raw events with service notification; group by
(eventType, channel). -/
def notificationMetricsOf (events : List AnalyticsEvent) (startDate endDate : ℤ)
    (companyId : Option String) : List NotificationRow :=
  let nes := (events.filter (matchesWindow "notification" startDate endDate companyId)).filter
    fun e => ["notification.sent", "notification.read", "notification.delivered"].contains
      e.eventType
  (groupCount (fun e => (e.eventType, e.eventData.channel)) nes).map fun r =>
    { eventType := r.id.1, channel := r.id.2, count := r.count }

/- ## _processUserMetrics -/

structure UserCounts where
  total : ℕ := 0
  active : ℕ := 0
  new : ℕ := 0
deriving Repr, DecidableEq

def applyUserCountRow (c : UserCounts) (item : GroupRow String) : UserCounts :=
  if item.id == "user.created" then { c with new := item.count }
  else if item.id == "user.active" then { c with active := item.count }
  else c

structure RoleCounts where
  admin : ℕ := 0
  manager : ℕ := 0
  agent : ℕ := 0
  customer : ℕ := 0
deriving Repr, DecidableEq

def applyRoleRow (p : RoleCounts) (item : GroupRow (Option String)) : RoleCounts :=
  match item.id with
  | some "admin" => { p with admin := item.count }
  | some "manager" => { p with manager := item.count }
  | some "agent" => { p with agent := item.count }
  | some "customer" => { p with customer := item.count }
  | _ => p

structure ActivityMetrics where
  averageLogins : ℚ := 0
  averageSessionDuration : ℚ := 0
  totalSessions : ℕ := 0
  totalLogins : ℕ := 0
deriving Repr, DecidableEq

structure EngagementMetrics where
  averageFeedbackSubmissions : ℚ := 0
  averageComments : ℚ := 0
  averageResponses : ℚ := 0
  averageResolutionTime : ℚ := 0
deriving Repr, DecidableEq

def applyEngagementRow (e : EngagementMetrics) (item : EngagementRow) : EngagementMetrics :=
  if item.id == "feedback.created" && decide (item.uniqueUsers > 0) then
    { e with averageFeedbackSubmissions := (item.totalCount : ℚ) / (item.uniqueUsers : ℚ) }
  else if item.id == "feedback.commented" && decide (item.uniqueUsers > 0) then
    { e with averageComments := (item.totalCount : ℚ) / (item.uniqueUsers : ℚ) }
  else if item.id == "feedback.responded" && decide (item.uniqueUsers > 0) then
    { e with averageResponses := (item.totalCount : ℚ) / (item.uniqueUsers : ℚ) }
  else e

structure ChannelEmail where
  sent : ℕ := 0
  delivered : ℕ := 0
  opened : ℕ := 0
deriving Repr, DecidableEq

structure ChannelSms where
  sent : ℕ := 0
  delivered : ℕ := 0
deriving Repr, DecidableEq

structure ChannelPush where
  sent : ℕ := 0
  delivered : ℕ := 0
  opened : ℕ := 0
deriving Repr, DecidableEq

structure ChannelInApp where
  sent : ℕ := 0
  read : ℕ := 0
deriving Repr, DecidableEq

structure ByChannel where
  email : ChannelEmail := {}
  sms : ChannelSms := {}
  push : ChannelPush := {}
  inApp : ChannelInApp := {}
deriving Repr, DecidableEq

structure NotificationSummary where
  sent : ℕ := 0
  read : ℕ := 0
  readRate : ℚ := 0
  byChannel : ByChannel := {}
deriving Repr, DecidableEq

/-- The notificationMetrics.forEach body: accumulate sent/read totals and
fill the per-channel sub-counts (`channel && notifications.byChannel[channel]`:
only the four fixed channel names hit a truthy sub-object). -/
def applyNotificationRow (n : NotificationSummary) (item : NotificationRow) :
    NotificationSummary :=
  if item.eventType == "notification.sent" then
    let n := { n with sent := n.sent + item.count }
    match item.channel with
    | some "email" => { n with byChannel := { n.byChannel with
        email := { n.byChannel.email with sent := item.count } } }
    | some "sms" => { n with byChannel := { n.byChannel with
        sms := { n.byChannel.sms with sent := item.count } } }
    | some "push" => { n with byChannel := { n.byChannel with
        push := { n.byChannel.push with sent := item.count } } }
    | some "inApp" => { n with byChannel := { n.byChannel with
        inApp := { n.byChannel.inApp with sent := item.count } } }
    | _ => n
  else if item.eventType == "notification.read" then
    let n := { n with read := n.read + item.count }
    if item.channel == some "inApp" then
      { n with byChannel := { n.byChannel with
          inApp := { n.byChannel.inApp with read := item.count } } }
    else n
  else if item.eventType == "notification.delivered" then
    if item.channel == some "email" then
      { n with byChannel := { n.byChannel with
          email := { n.byChannel.email with delivered := item.count } } }
    else if item.channel == some "sms" then
      { n with byChannel := { n.byChannel with
          sms := { n.byChannel.sms with delivered := item.count } } }
    else if item.channel == some "push" then
      { n with byChannel := { n.byChannel with
          push := { n.byChannel.push with delivered := item.count } } }
    else n
  else n

structure PerformanceMetrics where
  averageFeedbackHandled : ℚ := 0
  averageResolutionRate : ℚ := 0
  averageSatisfactionScore : ℚ := 0
  averageResponseTime : ℚ := 0
deriving Repr, DecidableEq

/-- The metrics object returned by _processUserMetrics. -/
structure UserMetricsBody where
  counts : UserCounts
  byRole : RoleCounts
  activity : ActivityMetrics
  engagement : EngagementMetrics
  performance : PerformanceMetrics
  notifications : NotificationSummary
deriving Repr, DecidableEq

/-- DataAggregator._processUserMetrics, including the placeholder
counts.total = counts.new * 10. -/
def processUserMetrics (userCounts : List (GroupRow String))
    (roleCounts : List (GroupRow (Option String)))
    (loginActivity : Option LoginActivityRow)
    (userEngagement : List EngagementRow)
    (notificationMetrics : List NotificationRow) : UserMetricsBody :=
  let counts0 := userCounts.foldl applyUserCountRow {}
  let counts := { counts0 with total := counts0.new * 10 }
  let byRole := roleCounts.foldl applyRoleRow {}
  let activity : ActivityMetrics :=
    match loginActivity with
    | none => {}
    | some data =>
      let base : ActivityMetrics :=
        { totalLogins := data.totalLogins, totalSessions := data.uniqueUsers }
      let base :=
        if data.uniqueUsers > 0 then
          { base with averageLogins := (data.totalLogins : ℚ) / (data.uniqueUsers : ℚ) }
        else base
      if data.sessionDurations.length > 0 then
        let durations := data.sessionDurations.flatten
        { base with averageSessionDuration := listSum durations / (durations.length : ℚ) }
      else base
  let engagement := userEngagement.foldl applyEngagementRow {}
  let notifications0 := notificationMetrics.foldl applyNotificationRow {}
  let notifications :=
    { notifications0 with
      readRate :=
        if notifications0.sent > 0 then
          (notifications0.read : ℚ) / (notifications0.sent : ℚ) * 100
        else 0 }
  { counts := counts, byRole := byRole, activity := activity, engagement := engagement,
    performance := {}, notifications := notifications }

/-- The user-metrics body computed from the raw event list for a window and
company scope. -/
def userMetricsOf (events : List AnalyticsEvent) (startDate endDate : ℤ)
    (companyId : Option String) : UserMetricsBody :=
  let es := userWindowEvents events startDate endDate companyId
  processUserMetrics (userCountsOf es) (roleCountsOf es) (loginActivityOf es)
    (userEngagementOf es) (notificationMetricsOf events startDate endDate companyId)

/- ## Metrics store and upsert (FeedbackMetrics/UserMetrics.findOneAndUpdate) -/

/-- The natural key of a metrics document: { period, date: startDate,
companyId: companyId || null }. -/
structure MetricsKey where
  period : String
  date : ℤ
  companyId : Option String
deriving Repr, DecidableEq

structure FeedbackMetricsDoc where
  body : FeedbackMetricsBody
  calculatedAt : ℤ
deriving Repr, DecidableEq

structure UserMetricsDoc where
  body : UserMetricsBody
  calculatedAt : ℤ
deriving Repr, DecidableEq

/-- findOneAndUpdate with upsert: replace the first document matching the
key, or append a new one. -/
def upsertDoc {α : Type} : List (MetricsKey × α) → MetricsKey → α → List (MetricsKey × α)
  | [], k, d => [(k, d)]
  | x :: rest, k, d => if x.1 = k then (k, d) :: rest else x :: upsertDoc rest k d

/-- findOne by key: first matching document. -/
def lookupDoc {α : Type} (s : List (MetricsKey × α)) (k : MetricsKey) : Option α :=
  (s.find? fun x => decide (x.1 = k)).map fun x => x.2

/-- Number of documents stored under a key. -/
def countKey {α : Type} (s : List (MetricsKey × α)) (k : MetricsKey) : ℕ :=
  (s.filter fun x => decide (x.1 = k)).length

/-- The store has at most one document per key. -/
def keysNodup {α : Type} (s : List (MetricsKey × α)) : Prop :=
  (s.map Prod.fst).Nodup

/-- DataAggregator.aggregateFeedbackMetrics(period, date, companyId) acting
on a metrics store: compute the window (an invalid period throws), compute
the body from the raw events in the window, and upsert the document keyed by
(period, startDate, companyId) with calculatedAt = now. -/
def aggregateFeedbackMetrics (events : List AnalyticsEvent) (period : String) (t now : ℤ)
    (companyId : Option String) (s : List (MetricsKey × FeedbackMetricsDoc)) :
    Except String (List (MetricsKey × FeedbackMetricsDoc)) :=
  match calculatePeriodDates period t now with
  | none => .error ("Invalid period: " ++ period)
  | some (startDate, endDate) =>
    .ok (upsertDoc s { period := period, date := startDate, companyId := companyId }
      { body := feedbackMetricsOf events startDate endDate companyId, calculatedAt := now })

/-- DataAggregator.aggregateUserMetrics acting on a metrics store. -/
def aggregateUserMetrics (events : List AnalyticsEvent) (period : String) (t now : ℤ)
    (companyId : Option String) (s : List (MetricsKey × UserMetricsDoc)) :
    Except String (List (MetricsKey × UserMetricsDoc)) :=
  match calculatePeriodDates period t now with
  | none => .error ("Invalid period: " ++ period)
  | some (startDate, endDate) =>
    .ok (upsertDoc s { period := period, date := startDate, companyId := companyId }
      { body := userMetricsOf events startDate endDate companyId, calculatedAt := now })

/- ## DataAggregator.runScheduledAggregation -/

/-- The per-company for-loop of runScheduledAggregation.  The loop body has
no try/catch of its own, so the first scope whose aggregation throws aborts
the loop; `aggFails scope` abstracts whether the two aggregate calls for
that scope throw.  Returns the scopes whose aggregation was started, and
whether the loop ran to completion. -/
def aggregateCompanyLoop (aggFails : Option String → Bool) :
    List String → List (Option String) × Bool
  | [] => ([], true)
  | c :: rest =>
    if aggFails (some c) then ([some c], false)
    else
      let r := aggregateCompanyLoop aggFails rest
      (some c :: r.1, r.2)

/-- runScheduledAggregation: platform-wide aggregation first, then the
per-company loop.  The single try/catch wraps the whole body (the function
itself never throws: a caught error is only logged), so a failure anywhere
ends the run.  Returns the scopes whose aggregation was started (none =
platform-wide) and whether the run completed without a caught error. -/
def runScheduledAggregation (companies : List String) (aggFails : Option String → Bool) :
    List (Option String) × Bool :=
  if aggFails none then ([none], false)
  else
    let r := aggregateCompanyLoop aggFails companies
    (none :: r.1, r.2)

/- ## metricsController.triggerAggregation -/

/-- The valid period kinds accepted by the manual trigger. -/
def validPeriods : List String :=
  ["daily", "weekly", "monthly", "quarterly", "yearly", "all_time"]

/-- The request body and caller roles of POST /metrics/aggregate.
startDate/endDate: `none` = absent, `some none` = present but unparseable
(new Date(s) is NaN), `some (some d)` = parses to instant d. -/
structure TriggerRequest where
  userRoles : List String
  period : Option String := none
  companyId : Option String := none
  startDate : Option (Option ℤ) := none
  endDate : Option (Option ℤ) := none
deriving Repr, DecidableEq

/-- The HTTP responses triggerAggregation can produce: 403 Access denied,
400 Validation error, 202 accepted, 500 Server error. -/
inductive TriggerResponse
  | forbidden
  | validationError (msg : String)
  | accepted (period : String)
  | serverError (msg : String)
deriving Repr, DecidableEq

/-- metricsController.triggerAggregation.  After the role and validation
checks the handler evaluates DataAggregator.runManualAggregation(period, {...});
DataAggregator (utils/dataAggregator.js) defines no such method, so the call
expression throws a TypeError which the surrounding try/catch turns into a
500 Server error response — the 202 accepted response on the following lines
is unreachable.  The Bool records whether control reached the aggregation
call site. -/
def triggerAggregation (req : TriggerRequest) : TriggerResponse × Bool :=
  if req.userRoles.contains "admin" then
    match req.period with
    | none =>
      (.validationError
        "Invalid period. Must be one of: daily, weekly, monthly, quarterly, yearly, all_time",
       false)
    | some p =>
      if p ∈ validPeriods then
        if req.startDate = some none then (.validationError "Invalid startDate format", false)
        else if req.endDate = some none then (.validationError "Invalid endDate format", false)
        else (.serverError "DataAggregator.runManualAggregation is not a function", true)
      else
        (.validationError
          "Invalid period. Must be one of: daily, weekly, monthly, quarterly, yearly, all_time",
         false)
  else (.forbidden, false)

/- ## Scheduler (utils/scheduler.js) -/

/-- The scheduler's job map: job name to cron expression (the task closure
is not part of the stored state the re-entrancy claim concerns). -/
structure Scheduler where
  jobs : List (String × String) := []
deriving Repr, DecidableEq

/-- Scheduler.scheduleJob: reject an invalid cron expression (cron.validate
is abstracted by the cronValid argument), stop and remove an existing job of
the same name, then store the new job. -/
def scheduleJob (sch : Scheduler) (name scronExpr : String) (cronValid : Bool) :
    Scheduler × Bool :=
  if cronValid then
    ({ jobs := (sch.jobs.filter fun j => j.1 != name) ++ [(name, scronExpr)] }, true)
  else (sch, false)

/-- The multiset of currently running task executions, by job name. -/
structure SchedulerRunState where
  inFlight : List String := []
deriving Repr, DecidableEq

/-- A cron trigger firing for a job name: the callback built in scheduleJob
logs, runs the task (wrapped in try/catch), and logs completion.  It
consults no running-state — the Scheduler stores only the cron handle — so
the task is started unconditionally, even when an execution of the same job
name is still in flight. -/
def onCronTick (sch : Scheduler) (st : SchedulerRunState) (name : String) : SchedulerRunState :=
  if sch.jobs.any (fun j => j.1 == name) then { st with inFlight := st.inFlight ++ [name] }
  else st

/-- A task execution finishing. -/
def onTaskComplete (st : SchedulerRunState) (name : String) : SchedulerRunState :=
  { st with inFlight := st.inFlight.erase name }

/- ## Theorems -/

/-- C1 counterexample: at reference instant 0 the daily window computed by
_calculatePeriodDates ends at 86399999 (moment endOf(day), the last
millisecond of the day), not at start + 24h = 86400000 as the claim states. -/
theorem calculatePeriodDates_daily_end_not_start_plus_24h :
    calculatePeriodDates "daily" 0 0 = some (0, 86399999) ∧
    ¬ (86399999 : ℤ) = 0 + msPerDay := by
  constructor
  · rfl
  · decide

/-- C1 (amended): for daily the window is [startOfDay t, startOfDay t + 24h − 1ms],
for weekly [most recent Sunday midnight, + 7d − 1ms], and for all_time
[epoch, now]; the start is midnight-aligned, start ≤ reference, and the
reference lies no later than the end (the end is the final millisecond of
the period, used exclusively by the $lt query bound). -/
theorem calculatePeriodDates_daily_weekly_allTime (t now : ℤ) :
    calculatePeriodDates "daily" t now = some (startOfDay t, startOfDay t + msPerDay - 1) ∧
    startOfDay t ≤ t ∧ t ≤ startOfDay t + msPerDay - 1 ∧ startOfDay t % msPerDay = 0 ∧
    calculatePeriodDates "weekly" t now = some (startOfWeek t, startOfWeek t + msPerWeek - 1) ∧
    startOfWeek t ≤ t ∧ t ≤ startOfWeek t + msPerWeek - 1 ∧
    startOfWeek t % msPerDay = 0 ∧ dayOfWeek (startOfWeek t) = 0 ∧
    calculatePeriodDates "all_time" t now = some (0, now) := by
  refine ⟨rfl, ?_, ?_, ?_, rfl, ?_, ?_, ?_, ?_, rfl⟩ <;>
    simp only [startOfDay, startOfWeek, dayOfWeek, msPerDay, msPerWeek] <;> omega

/-- C7: an unrecognized period kind is rejected before any aggregation work:
the period calculator returns the Invalid-period error for every reference
instant, and the manual trigger endpoint answers with a validation error
without reaching the aggregation call site. -/
theorem invalidPeriod_rejected (p : String) (hp : p ∉ validPeriods) :
    (∀ t now : ℤ, calculatePeriodDates p t now = none) ∧
    (∀ req : TriggerRequest, req.period = some p → req.userRoles.contains "admin" = true →
      triggerAggregation req =
        (.validationError
          "Invalid period. Must be one of: daily, weekly, monthly, quarterly, yearly, all_time",
         false)) := by
  have h1 : p ≠ "daily" := by rintro rfl; exact hp (by simp [validPeriods])
  have h2 : p ≠ "weekly" := by rintro rfl; exact hp (by simp [validPeriods])
  have h3 : p ≠ "monthly" := by rintro rfl; exact hp (by simp [validPeriods])
  have h4 : p ≠ "quarterly" := by rintro rfl; exact hp (by simp [validPeriods])
  have h5 : p ≠ "yearly" := by rintro rfl; exact hp (by simp [validPeriods])
  have h6 : p ≠ "all_time" := by rintro rfl; exact hp (by simp [validPeriods])
  constructor
  · intro t now
    simp [calculatePeriodDates, h1, h2, h3, h4, h5, h6]
  · intro req hper hadm
    have hadm' : "admin" ∈ req.userRoles := by simpa using hadm
    simp [triggerAggregation, hadm, hadm', hper, hp]

/-- Witness for invalidPeriod_rejected at the concrete unrecognized kind
"hourly". -/
theorem invalidPeriod_rejected_hourly :
    calculatePeriodDates "hourly" 0 0 = none ∧
    triggerAggregation { userRoles := ["admin"], period := some "hourly" } =
      (.validationError
        "Invalid period. Must be one of: daily, weekly, monthly, quarterly, yearly, all_time",
       false) := by
  have h := invalidPeriod_rejected "hourly" (by decide)
  exact ⟨h.1 0 0, h.2 _ rfl (by decide)⟩

/-- C8 (code bug): an admin request with the valid period daily reaches the
DataAggregator.runManualAggregation call, which throws (the method does not
exist), so the handler responds 500 Server error; moreover no request at
all can receive the 202 accepted response. -/
theorem triggerAggregation_never_accepted :
    triggerAggregation { userRoles := ["admin"], period := some "daily" } =
      (.serverError "DataAggregator.runManualAggregation is not a function", true) ∧
    ∀ (req : TriggerRequest) (p : String),
      (triggerAggregation req).1 ≠ TriggerResponse.accepted p := by
  constructor
  · rfl
  · intro req p
    unfold triggerAggregation
    split
    · split
      · simp
      · split
        · split_ifs <;> simp
        · simp
    · simp

/-- C10 counterexample: with the daily-aggregation job scheduled, a second
cron tick firing while the first execution is still in flight starts a
second execution instead of being skipped: the in-flight count for the job
name is 2, not 1 as the claim requires. -/
theorem onCronTick_two_ticks_two_executions :
    (onCronTick ((scheduleJob {} "daily-aggregation" "0 0 * * *" true).1) {}
        "daily-aggregation").inFlight.count "daily-aggregation" = 1 ∧
    (onCronTick ((scheduleJob {} "daily-aggregation" "0 0 * * *" true).1)
        (onCronTick ((scheduleJob {} "daily-aggregation" "0 0 * * *" true).1) {}
          "daily-aggregation")
        "daily-aggregation").inFlight.count "daily-aggregation" = 2 ∧
    ¬ (onCronTick ((scheduleJob {} "daily-aggregation" "0 0 * * *" true).1)
        (onCronTick ((scheduleJob {} "daily-aggregation" "0 0 * * *" true).1) {}
          "daily-aggregation")
        "daily-aggregation").inFlight.count "daily-aggregation" = 1 := by
  decide

/-- C10 (amended): the scheduler keeps no running-state and the cron
callback performs no re-entrancy check, so every trigger for a scheduled
job name starts one more concurrent execution of that job, regardless of
how many are already in flight. -/
theorem onCronTick_starts_execution (sch : Scheduler) (st : SchedulerRunState) (name : String)
    (h : sch.jobs.any (fun j => j.1 == name) = true) :
    (onCronTick sch st name).inFlight.count name = st.inFlight.count name + 1 := by
  simp [onCronTick, h, List.count_append]

/-- Witness for onCronTick_starts_execution with the scheduled
daily-aggregation job and an empty run state. -/
theorem onCronTick_starts_execution_witness :
    (onCronTick ((scheduleJob {} "daily-aggregation" "0 0 * * *" true).1) {}
        "daily-aggregation").inFlight.count "daily-aggregation" =
      (({} : SchedulerRunState)).inFlight.count "daily-aggregation" + 1 :=
  onCronTick_starts_execution ((scheduleJob {} "daily-aggregation" "0 0 * * *" true).1) {}
    "daily-aggregation" (by decide)

/-- C5 counterexample: with two companies and an aggregation failure for the
first one, the scheduled run attempts the platform-wide scope and the
failing company only; the second company is never processed, contrary to
the claim that scopes after a failing scope are still processed. -/
theorem runScheduledAggregation_aborts_remaining_companies :
    runScheduledAggregation ["companyA", "companyB"] (fun s => s == some "companyA") =
      ([none, some "companyA"], false) ∧
    some "companyB" ∉
      (runScheduledAggregation ["companyA", "companyB"] (fun s => s == some "companyA")).1 := by
  constructor
  · rfl
  · decide

/-- The per-company loop up to and including the first failing company. -/
theorem aggregateCompanyLoop_stops_at_failure (f : Option String → Bool) (c : String)
    (post : List String) (hc : f (some c) = true) :
    ∀ pre : List String, (∀ a ∈ pre, f (some a) = false) →
      aggregateCompanyLoop f (pre ++ c :: post) = (pre.map some ++ [some c], false)
  | [], _ => by simp [aggregateCompanyLoop, hc]
  | a :: pre, h => by
    have ha : f (some a) = false := h a (by simp)
    have hrest : ∀ x ∈ pre, f (some x) = false := fun x hx => h x (by simp [hx])
    simp [aggregateCompanyLoop, ha,
      aggregateCompanyLoop_stops_at_failure f c post hc pre hrest]

/-- The per-company loop when no company fails. -/
theorem aggregateCompanyLoop_all_ok (f : Option String → Bool)
    (h : ∀ s, f s = false) : ∀ cs : List String,
      aggregateCompanyLoop f cs = (cs.map some, true)
  | [] => rfl
  | c :: cs => by
    simp [aggregateCompanyLoop, h (some c), aggregateCompanyLoop_all_ok f h cs]

/-- C5 (amended): a failure in one scope's aggregation is caught only by the
try/catch around the whole run (the run itself returns instead of
propagating the error), but the per-company loop has no per-iteration
catch: the run processes the platform-wide scope and the companies up to
and including the first failing one, and skips every company after it;
when no scope fails, every scope is processed and the run completes. -/
theorem runScheduledAggregation_failure_ends_run (pre post : List String) (c : String)
    (f : Option String → Bool) (hn : f none = false)
    (hpre : ∀ a ∈ pre, f (some a) = false) (hc : f (some c) = true) :
    runScheduledAggregation (pre ++ c :: post) f =
      (none :: (pre.map some ++ [some c]), false) ∧
    ∀ (cs : List String) (g : Option String → Bool), (∀ s, g s = false) →
      runScheduledAggregation cs g = (none :: cs.map some, true) := by
  constructor
  · simp [runScheduledAggregation, hn,
      aggregateCompanyLoop_stops_at_failure f c post hc pre hpre]
  · intro cs g hg
    simp [runScheduledAggregation, hg none, aggregateCompanyLoop_all_ok g hg cs]

/-- Witness for runScheduledAggregation_failure_ends_run: companyB of three
companies fails; companyA and companyB are processed, companyC is not. -/
theorem runScheduledAggregation_failure_ends_run_witness :
    runScheduledAggregation ["companyA", "companyB", "companyC"]
      (fun s => s == some "companyB") =
      (none :: ([some "companyA"] ++ [some "companyB"]), false) := by
  have h := runScheduledAggregation_failure_ends_run ["companyA"] ["companyC"] "companyB"
    (fun s => s == some "companyB") (by decide) (by decide) (by decide)
  simpa using h.1

/-- The statusCounts group rows never carry an eventData field. -/
theorem statusCountsOf_eventData_none (es : List AnalyticsEvent) :
    ∀ r ∈ statusCountsOf es, r.eventData = none := by
  intro r hr
  simp only [statusCountsOf, List.mem_map] at hr
  obtain ⟨x, _, rfl⟩ := hr
  rfl

/-- A status row without an eventData payload can never hit the in-progress
branch (it also tests item.eventData?.status), so the fold step preserves
inProgress. -/
theorem applyStatusRow_inProgress (acc : FeedbackCounts) (r : StatusGroupRow)
    (hr : r.eventData = none) : (applyStatusRow acc r).inProgress = acc.inProgress := by
  unfold applyStatusRow
  rw [hr]
  have h2 : ((((none : Option EventData).bind fun d => d.status)) == some "in_progress") =
      false := rfl
  rw [h2, Bool.and_false]
  split_ifs <;> first | rfl | simp_all

/-- Folding the status rows never sets inProgress when no row carries an
eventData payload. -/
theorem foldl_applyStatusRow_inProgress (rows : List StatusGroupRow) :
    ∀ acc : FeedbackCounts, (∀ r ∈ rows, r.eventData = none) →
      (rows.foldl applyStatusRow acc).inProgress = acc.inProgress := by
  induction rows with
  | nil => intro acc _; rfl
  | cons r rows ih =>
    intro acc h
    have hr : r.eventData = none := h r (by simp)
    have hrest : ∀ x ∈ rows, x.eventData = none := fun x hx => h x (by simp [hx])
    rw [List.foldl_cons, ih _ hrest, applyStatusRow_inProgress acc r hr]

/-- Folding the status rows preserves new = total (the only branch touching
either field sets both to the same count). -/
theorem foldl_applyStatusRow_new_eq_total (rows : List StatusGroupRow) :
    ∀ acc : FeedbackCounts, acc.new = acc.total →
      (rows.foldl applyStatusRow acc).new = (rows.foldl applyStatusRow acc).total := by
  induction rows with
  | nil => intro acc h; exact h
  | cons r rows ih =>
    intro acc h
    rw [List.foldl_cons]
    refine ih _ ?_
    unfold applyStatusRow
    split
    · rfl
    · split
      · exact h
      · split
        · exact h
        · split <;> exact h

/-- C9: in every feedback-metrics body produced by aggregation,
counts.inProgress is 0 and counts.new equals counts.total, for every event
list, window and company scope: the in-progress branch of the status fold
tests a field absent from the grouped rows. -/
theorem feedback_counts_inProgress_zero (events : List AnalyticsEvent)
    (startDate endDate : ℤ) (companyId : Option String) :
    (feedbackMetricsOf events startDate endDate companyId).counts.inProgress = 0 ∧
    (feedbackMetricsOf events startDate endDate companyId).counts.new =
      (feedbackMetricsOf events startDate endDate companyId).counts.total := by
  constructor
  · exact foldl_applyStatusRow_inProgress _ {}
      (statusCountsOf_eventData_none (feedbackWindowEvents events startDate endDate companyId))
  · exact foldl_applyStatusRow_new_eq_total _ {} rfl

/-- The code's natural-division p95 position (19n + 19) / 20 agrees with the
rational ceiling ceil(n * 0.95). -/
theorem p95_ceil_eq (n : ℕ) :
    ⌈(n : ℚ) * (95 / 100)⌉ = (((19 * n + 19) / 20 : ℕ) : ℤ) := by
  have h1 : 20 * ((19 * n + 19) / 20) ≤ 19 * n + 19 := by omega
  have h2 : 19 * n + 19 < 20 * ((19 * n + 19) / 20) + 20 := by omega
  have hx : (n : ℚ) * (95 / 100) = ((19 * n : ℕ) : ℚ) / 20 := by push_cast; ring
  rw [hx, Int.ceil_eq_iff]
  constructor
  · rw [lt_div_iff₀ (by norm_num : (0 : ℚ) < 20)]
    have h4 : ((19 * n + 19) / 20) * 20 < 19 * n + 20 := by omega
    have h5 : ((((19 * n + 19) / 20 : ℕ) : ℤ) : ℚ) * 20 < ((19 * n : ℕ) : ℚ) + 20 := by
      exact_mod_cast h4
    linarith
  · rw [div_le_iff₀ (by norm_num : (0 : ℚ) < 20)]
    have h3 : 19 * n ≤ ((19 * n + 19) / 20) * 20 := by omega
    exact_mod_cast h3

/-- C2: the distribution-stats reducer returns 0 for median and p95 on an
empty sample list; on a non-empty list it returns the average of the two
middle values of the ascending sort for even length (the single middle
value for odd length, expressed by the floor/ceiling middle indexes
coinciding), and the sorted element at index ceil(n * 0.95) − 1; in
particular [10, 20, 30, 40] yields median 25 and p95 40. -/
theorem distributionStats_median_p95 :
    (distributionStats []).median = 0 ∧ (distributionStats []).percentile95 = 0 ∧
    (∀ samples : List ℚ, samples ≠ [] →
      (distributionStats samples).median =
        ((sortAsc samples).getD ((samples.length - 1) / 2) 0 +
          (sortAsc samples).getD (samples.length / 2) 0) / 2 ∧
      (distributionStats samples).percentile95 =
        (sortAsc samples).getD ((⌈(samples.length : ℚ) * (95 / 100)⌉).toNat - 1) 0) ∧
    (distributionStats [10, 20, 30, 40]).median = 25 ∧
    (distributionStats [10, 20, 30, 40]).percentile95 = 40 := by
  refine ⟨rfl, rfl, ?_,
    by norm_num [distributionStats, timesGroupOf, processTimes, sortAsc, List.insertionSort,
      List.orderedInsert, medianOfSorted, p95Index],
    by norm_num [distributionStats, timesGroupOf, processTimes, sortAsc, List.insertionSort,
      List.orderedInsert, medianOfSorted, p95Index]⟩
  intro samples hne
  obtain ⟨v, rest, rfl⟩ : ∃ v rest, samples = v :: rest := by
    cases samples with
    | nil => exact absurd rfl hne
    | cons v rest => exact ⟨v, rest, rfl⟩
  have hd : distributionStats (v :: rest) =
      { average := listSum (v :: rest) / (v :: rest).length,
        min := rest.foldl Min.min v, max := rest.foldl Max.max v,
        median := medianOfSorted (sortAsc (v :: rest)),
        percentile95 :=
          (sortAsc (v :: rest)).getD (p95Index (sortAsc (v :: rest)).length) 0 } := rfl
  have hlen : (sortAsc (v :: rest)).length = (v :: rest).length :=
    (List.perm_insertionSort _ (v :: rest)).length_eq
  have hpos : 0 < (v :: rest).length := by simp
  constructor
  · rw [hd]
    show medianOfSorted (sortAsc (v :: rest)) = _
    unfold medianOfSorted
    rw [hlen]
    rcases Nat.even_or_odd (v :: rest).length with he | ho
    · have hmod : (v :: rest).length % 2 = 0 := Nat.even_iff.mp he
      have hidx : ((v :: rest).length - 1) / 2 = (v :: rest).length / 2 - 1 := by omega
      simp only [hmod, hidx, beq_self_eq_true, if_true]
    · have hmod : (v :: rest).length % 2 = 1 := Nat.odd_iff.mp ho
      have hidx : ((v :: rest).length - 1) / 2 = (v :: rest).length / 2 := by omega
      simp only [hmod, hidx]
      norm_num
  · rw [hd]
    show (sortAsc (v :: rest)).getD (p95Index (sortAsc (v :: rest)).length) 0 = _
    rw [hlen, p95_ceil_eq, Int.toNat_natCast]
    rfl

/-- Witness for the quantified clause of distributionStats_median_p95 at the
concrete odd-length sample list [30, 10, 20]. -/
theorem distributionStats_median_p95_witness :
    ([30, 10, 20] : List ℚ) ≠ [] ∧
    (distributionStats [30, 10, 20]).median =
      ((sortAsc [30, 10, 20]).getD ((([30, 10, 20] : List ℚ).length - 1) / 2) 0 +
        (sortAsc [30, 10, 20]).getD (([30, 10, 20] : List ℚ).length / 2) 0) / 2 ∧
    (distributionStats [30, 10, 20]).percentile95 =
      (sortAsc [30, 10, 20]).getD
        ((⌈(([30, 10, 20] : List ℚ).length : ℚ) * (95 / 100)⌉).toNat - 1) 0 := by
  refine ⟨by decide, ?_, ?_⟩
  · exact (distributionStats_median_p95.2.2.1 [30, 10, 20] (by decide)).1
  · exact (distributionStats_median_p95.2.2.1 [30, 10, 20] (by decide)).2

/-- C3: every rate computation in the metric assemblers is guarded by its
denominator: escalation percentage and average comments per feedback return
0 when the feedback total is 0 and numerator/denominator * 100 (plain
quotient for the average) otherwise; the notification read rate behaves the
same with the sent count as denominator.  In the rational embedding no NaN
or division error can arise. -/
theorem rate_zero_denominator_guards
    (sc : List StatusGroupRow) (pc cc : List (GroupRow (Option String)))
    (rt rz : Option TimesGroup) (sat : Option SatisfactionGroupRow)
    (esc : List (GroupRow (Option ℤ))) (com : List (GroupRow (Option String)))
    (uc : List (GroupRow String)) (rc : List (GroupRow (Option String)))
    (la : Option LoginActivityRow) (ue : List EngagementRow) (nm : List NotificationRow) :
    ((processFeedbackMetrics sc pc cc rt rz sat esc com).counts.total = 0 →
      (processFeedbackMetrics sc pc cc rt rz sat esc com).escalations.percentage = 0 ∧
      (processFeedbackMetrics sc pc cc rt rz sat esc com).comments.average = 0) ∧
    ((processFeedbackMetrics sc pc cc rt rz sat esc com).counts.total ≠ 0 →
      (processFeedbackMetrics sc pc cc rt rz sat esc com).escalations.percentage =
        ((processFeedbackMetrics sc pc cc rt rz sat esc com).escalations.count : ℚ) /
          ((processFeedbackMetrics sc pc cc rt rz sat esc com).counts.total : ℚ) * 100 ∧
      (processFeedbackMetrics sc pc cc rt rz sat esc com).comments.average =
        ((processFeedbackMetrics sc pc cc rt rz sat esc com).comments.total : ℚ) /
          ((processFeedbackMetrics sc pc cc rt rz sat esc com).counts.total : ℚ)) ∧
    ((processUserMetrics uc rc la ue nm).notifications.sent = 0 →
      (processUserMetrics uc rc la ue nm).notifications.readRate = 0) ∧
    ((processUserMetrics uc rc la ue nm).notifications.sent ≠ 0 →
      (processUserMetrics uc rc la ue nm).notifications.readRate =
        ((processUserMetrics uc rc la ue nm).notifications.read : ℚ) /
          ((processUserMetrics uc rc la ue nm).notifications.sent : ℚ) * 100) := by
  dsimp only [processFeedbackMetrics, processUserMetrics]
  refine ⟨fun h => ⟨?_, ?_⟩, fun h => ⟨?_, ?_⟩, fun h => ?_, fun h => ?_⟩
  · simp [h]
  · simp [h]
  · rw [if_pos (Nat.pos_of_ne_zero h)]
  · rw [if_pos (Nat.pos_of_ne_zero h)]
  · simp [h]
  · rw [if_pos (Nat.pos_of_ne_zero h)]

/-- Witness for rate_zero_denominator_guards with all-empty grouped inputs
(every denominator 0). -/
theorem rate_zero_denominator_guards_witness :
    (processFeedbackMetrics [] [] [] none none none [] []).escalations.percentage = 0 ∧
    (processFeedbackMetrics [] [] [] none none none [] []).comments.average = 0 ∧
    (processUserMetrics [] [] none [] []).notifications.readRate = 0 := by
  have h := rate_zero_denominator_guards [] [] [] none none none [] [] [] [] none [] []
  exact ⟨(h.1 rfl).1, (h.1 rfl).2, h.2.2.1 rfl⟩

/-- An event list whose daily window contains one feedback.created event but
two feedback.escalated events. -/
def escalationBurst : List AnalyticsEvent :=
  [{ sourceService := "feedback", eventType := "feedback.created", timestamp := 0 },
   { sourceService := "feedback", eventType := "feedback.escalated", timestamp := 1,
     eventData := { escalationLevel := some 1 } },
   { sourceService := "feedback", eventType := "feedback.escalated", timestamp := 2,
     eventData := { escalationLevel := some 2 } }]

/-- C6 counterexample: escalated events are counted independently of created
events, so a window with 2 escalations and 1 creation yields an escalation
percentage of 200, violating the claimed 0 ≤ value ≤ 100 invariant. -/
theorem escalation_percentage_above_100 :
    (feedbackMetricsOf escalationBurst 0 86400000 none).escalations.percentage = 200 ∧
    ¬ (feedbackMetricsOf escalationBurst 0 86400000 none).escalations.percentage ≤ 100 := by
  have h : (feedbackMetricsOf escalationBurst 0 86400000 none).escalations.percentage = 200 := by
    norm_num [feedbackMetricsOf, feedbackWindowEvents, matchesWindow, statusCountsOf,
      priorityCountsOf, categoryCountsOf, responseTimesOf, responseTimeSamples,
      resolutionTimesOf, resolutionTimeSamples, satisfactionScoresOf, escalationDataOf,
      commentDataOf, timesGroupOf, groupCount, groupKeys, processFeedbackMetrics,
      escalationBurst, applyStatusRow, applyEscalationRow, List.foldl, List.filter,
      List.contains, show ((2 : ℤ) == 1) = false from rfl, show ((1 : ℤ) == 2) = false from rfl,
      show ((1 : ℤ) == 1) = true from rfl, show ((2 : ℤ) == 2) = true from rfl]
  exact ⟨h, by rw [h]; norm_num⟩

/-- Bounds of the guarded rate expression used for escalation percentage and
notification read rate: nonnegative, 0 on a zero denominator, and at most
100 whenever the numerator does not exceed the denominator. -/
theorem ratePercent_bounds (num den : ℕ) :
    0 ≤ (if den > 0 then (num : ℚ) / (den : ℚ) * 100 else 0) ∧
    (den = 0 → (if den > 0 then (num : ℚ) / (den : ℚ) * 100 else 0) = 0) ∧
    (num ≤ den → (if den > 0 then (num : ℚ) / (den : ℚ) * 100 else 0) ≤ 100) := by
  refine ⟨?_, fun h => by simp [h], fun hle => ?_⟩
  · split_ifs
    · positivity
    · exact le_refl 0
  · rcases Nat.eq_zero_or_pos den with h0 | hpos
    · simp [h0]
    · rw [if_pos hpos]
      have hq : (0 : ℚ) < (den : ℚ) := by exact_mod_cast hpos
      have h1 : (num : ℚ) ≤ (den : ℚ) := by exact_mod_cast hle
      have h2 : (num : ℚ) / (den : ℚ) ≤ 1 := (div_le_one hq).mpr h1
      linarith

/-- C6 (amended): in every produced metrics document the escalation
percentage and notification read rate are nonnegative and equal 0 whenever
their denominator (created total, sent count) is 0; they are at most 100
whenever the numerator count does not exceed the denominator count — the
code applies no clamp, so windows whose escalation (read) events outnumber
the created (sent) events exceed 100. -/
theorem percentage_fields_bounded (events : List AnalyticsEvent) (startDate endDate : ℤ)
    (companyId : Option String) :
    0 ≤ (feedbackMetricsOf events startDate endDate companyId).escalations.percentage ∧
    ((feedbackMetricsOf events startDate endDate companyId).counts.total = 0 →
      (feedbackMetricsOf events startDate endDate companyId).escalations.percentage = 0) ∧
    ((feedbackMetricsOf events startDate endDate companyId).escalations.count ≤
        (feedbackMetricsOf events startDate endDate companyId).counts.total →
      (feedbackMetricsOf events startDate endDate companyId).escalations.percentage ≤ 100) ∧
    0 ≤ (userMetricsOf events startDate endDate companyId).notifications.readRate ∧
    ((userMetricsOf events startDate endDate companyId).notifications.sent = 0 →
      (userMetricsOf events startDate endDate companyId).notifications.readRate = 0) ∧
    ((userMetricsOf events startDate endDate companyId).notifications.read ≤
        (userMetricsOf events startDate endDate companyId).notifications.sent →
      (userMetricsOf events startDate endDate companyId).notifications.readRate ≤ 100) := by
  dsimp only [feedbackMetricsOf, processFeedbackMetrics, userMetricsOf, processUserMetrics]
  exact ⟨(ratePercent_bounds _ _).1, (ratePercent_bounds _ _).2.1, (ratePercent_bounds _ _).2.2,
    (ratePercent_bounds _ _).1, (ratePercent_bounds _ _).2.1, (ratePercent_bounds _ _).2.2⟩

/-- Witness for percentage_fields_bounded on an empty event set (both
denominators 0, numerators ≤ denominators). -/
theorem percentage_fields_bounded_witness :
    (feedbackMetricsOf [] 0 1 none).escalations.percentage = 0 ∧
    (feedbackMetricsOf [] 0 1 none).escalations.percentage ≤ 100 ∧
    (userMetricsOf [] 0 1 none).notifications.readRate = 0 ∧
    (userMetricsOf [] 0 1 none).notifications.readRate ≤ 100 := by
  have h := percentage_fields_bounded [] 0 1 none
  exact ⟨h.2.1 rfl, h.2.2.1 (by decide), h.2.2.2.2.1 rfl, h.2.2.2.2.2 (by decide)⟩

/-- The upsert stores the new document under the key: a findOne after the
write returns it. -/
theorem lookupDoc_upsertDoc {α : Type} (s : List (MetricsKey × α)) (k : MetricsKey) (d : α) :
    lookupDoc (upsertDoc s k d) k = some d := by
  induction s with
  | nil => simp [upsertDoc, lookupDoc]
  | cons x rest ih =>
    by_cases h : x.1 = k
    · simp [upsertDoc, h, lookupDoc]
    · simp only [upsertDoc, if_neg h]
      have hstep : lookupDoc (x :: upsertDoc rest k d) k = lookupDoc (upsertDoc rest k d) k := by
        simp [lookupDoc, List.find?_cons, h]
      rw [hstep, ih]

/-- Keys after an upsert come from the old store or are the upserted key. -/
theorem mem_keys_upsertDoc {α : Type} (s : List (MetricsKey × α)) (k a : MetricsKey) (d : α)
    (ha : a ∈ (upsertDoc s k d).map Prod.fst) : a ∈ s.map Prod.fst ∨ a = k := by
  induction s with
  | nil =>
    simp [upsertDoc] at ha
    exact Or.inr ha
  | cons x rest ih =>
    by_cases h : x.1 = k
    · simp only [upsertDoc, if_pos h, List.map_cons, List.mem_cons] at ha
      rcases ha with rfl | hm
      · exact Or.inr rfl
      · exact Or.inl (by simp [hm])
    · simp only [upsertDoc, if_neg h, List.map_cons, List.mem_cons] at ha
      rcases ha with rfl | hm
      · exact Or.inl (by simp)
      · rcases ih hm with hin | rfl
        · exact Or.inl (by simp [hin])
        · exact Or.inr rfl

/-- Upserting into a store with unique keys keeps the keys unique. -/
theorem keysNodup_upsertDoc {α : Type} (s : List (MetricsKey × α)) (k : MetricsKey) (d : α)
    (h : keysNodup s) : keysNodup (upsertDoc s k d) := by
  induction s with
  | nil => simp [upsertDoc, keysNodup]
  | cons x rest ih =>
    have hx : x.1 ∉ rest.map Prod.fst := by
      have := h
      simp only [keysNodup, List.map_cons, List.nodup_cons] at this
      exact this.1
    have hrest : keysNodup rest := by
      have := h
      simp only [keysNodup, List.map_cons, List.nodup_cons] at this
      exact this.2
    by_cases hk : x.1 = k
    · simp only [upsertDoc, if_pos hk, keysNodup, List.map_cons, List.nodup_cons]
      exact ⟨hk ▸ hx, hrest⟩
    · simp only [upsertDoc, if_neg hk, keysNodup, List.map_cons, List.nodup_cons]
      refine ⟨fun hmem => ?_, ih hrest⟩
      rcases mem_keys_upsertDoc rest k x.1 d hmem with hin | heq
      · exact hx hin
      · exact hk heq

/-- A key absent from the store has no stored document. -/
theorem countKey_eq_zero_of_not_mem {α : Type} (s : List (MetricsKey × α)) (k : MetricsKey) :
    k ∉ s.map Prod.fst → countKey s k = 0 := by
  induction s with
  | nil => intro _; rfl
  | cons x rest ih =>
    intro h
    have hx : ¬ x.1 = k := fun he => h (by simp [he])
    have hrest : k ∉ rest.map Prod.fst := fun hm => h (by simp [hm])
    have hstep : countKey (x :: rest) k = countKey rest k := by
      simp [countKey, List.filter_cons, hx]
    rw [hstep, ih hrest]

/-- After an upsert into a unique-key store, exactly one document exists for
the key. -/
theorem countKey_upsertDoc {α : Type} (s : List (MetricsKey × α)) (k : MetricsKey) (d : α)
    (h : keysNodup s) : countKey (upsertDoc s k d) k = 1 := by
  induction s with
  | nil => simp [upsertDoc, countKey, List.filter_cons]
  | cons x rest ih =>
    have hx : x.1 ∉ rest.map Prod.fst := by
      have := h
      simp only [keysNodup, List.map_cons, List.nodup_cons] at this
      exact this.1
    have hrest : keysNodup rest := by
      have := h
      simp only [keysNodup, List.map_cons, List.nodup_cons] at this
      exact this.2
    by_cases hk : x.1 = k
    · have hknot : k ∉ rest.map Prod.fst := hk ▸ hx
      have hstep : countKey ((k, d) :: rest) k = countKey rest k + 1 := by
        simp [countKey, List.filter_cons]
      calc countKey (upsertDoc (x :: rest) k d) k
          = countKey ((k, d) :: rest) k := by rw [upsertDoc, if_pos hk]
        _ = countKey rest k + 1 := hstep
        _ = 1 := by rw [countKey_eq_zero_of_not_mem rest k hknot]
    · have hstep : countKey (x :: upsertDoc rest k d) k = countKey (upsertDoc rest k d) k := by
        simp [countKey, List.filter_cons, hk]
      calc countKey (upsertDoc (x :: rest) k d) k
          = countKey (x :: upsertDoc rest k d) k := by rw [upsertDoc, if_neg hk]
        _ = countKey (upsertDoc rest k d) k := hstep
        _ = 1 := ih hrest

/-- C4 (as claimed): aggregation is an idempotent upsert.  Running feedback
and user aggregation twice for the same (period, window start, company
scope) over the same event list stores, both times, the identical document
body computed from the events — differing only in calculatedAt — fully
overwriting the previous document, and the store keeps exactly one document
of each type for that key. -/
theorem aggregation_idempotent_upsert (events : List AnalyticsEvent) (p : String)
    (t now1 now2 : ℤ) (c : Option String) (w : ℤ × ℤ)
    (sf : List (MetricsKey × FeedbackMetricsDoc)) (su : List (MetricsKey × UserMetricsDoc))
    (hw1 : calculatePeriodDates p t now1 = some w)
    (hw2 : calculatePeriodDates p t now2 = some w)
    (hsf : keysNodup sf) (hsu : keysNodup su) :
    ∃ sf1 sf2 su1 su2,
      aggregateFeedbackMetrics events p t now1 c sf = .ok sf1 ∧
      aggregateFeedbackMetrics events p t now2 c sf1 = .ok sf2 ∧
      aggregateUserMetrics events p t now1 c su = .ok su1 ∧
      aggregateUserMetrics events p t now2 c su1 = .ok su2 ∧
      lookupDoc sf1 { period := p, date := w.1, companyId := c } =
        some { body := feedbackMetricsOf events w.1 w.2 c, calculatedAt := now1 } ∧
      lookupDoc sf2 { period := p, date := w.1, companyId := c } =
        some { body := feedbackMetricsOf events w.1 w.2 c, calculatedAt := now2 } ∧
      lookupDoc su1 { period := p, date := w.1, companyId := c } =
        some { body := userMetricsOf events w.1 w.2 c, calculatedAt := now1 } ∧
      lookupDoc su2 { period := p, date := w.1, companyId := c } =
        some { body := userMetricsOf events w.1 w.2 c, calculatedAt := now2 } ∧
      countKey sf2 { period := p, date := w.1, companyId := c } = 1 ∧
      countKey su2 { period := p, date := w.1, companyId := c } = 1 ∧
      keysNodup sf2 ∧ keysNodup su2 := by
  obtain ⟨ws, we⟩ := w
  refine ⟨upsertDoc sf { period := p, date := ws, companyId := c }
      { body := feedbackMetricsOf events ws we c, calculatedAt := now1 },
    upsertDoc (upsertDoc sf { period := p, date := ws, companyId := c }
        { body := feedbackMetricsOf events ws we c, calculatedAt := now1 })
      { period := p, date := ws, companyId := c }
      { body := feedbackMetricsOf events ws we c, calculatedAt := now2 },
    upsertDoc su { period := p, date := ws, companyId := c }
      { body := userMetricsOf events ws we c, calculatedAt := now1 },
    upsertDoc (upsertDoc su { period := p, date := ws, companyId := c }
        { body := userMetricsOf events ws we c, calculatedAt := now1 })
      { period := p, date := ws, companyId := c }
      { body := userMetricsOf events ws we c, calculatedAt := now2 },
    ?_, ?_, ?_, ?_, ?_, ?_, ?_, ?_, ?_, ?_, ?_, ?_⟩
  · rw [aggregateFeedbackMetrics, hw1]
  · rw [aggregateFeedbackMetrics, hw2]
  · rw [aggregateUserMetrics, hw1]
  · rw [aggregateUserMetrics, hw2]
  · exact lookupDoc_upsertDoc ..
  · exact lookupDoc_upsertDoc ..
  · exact lookupDoc_upsertDoc ..
  · exact lookupDoc_upsertDoc ..
  · exact countKey_upsertDoc _ _ _ (keysNodup_upsertDoc _ _ _ hsf)
  · exact countKey_upsertDoc _ _ _ (keysNodup_upsertDoc _ _ _ hsu)
  · exact keysNodup_upsertDoc _ _ _ (keysNodup_upsertDoc _ _ _ hsf)
  · exact keysNodup_upsertDoc _ _ _ (keysNodup_upsertDoc _ _ _ hsu)

/-- Witness for aggregation_idempotent_upsert: two daily runs at clock
readings 5 and 9 over an empty event set and empty stores. -/
theorem aggregation_idempotent_upsert_witness :
    ∃ sf1 sf2 su1 su2,
      aggregateFeedbackMetrics [] "daily" 0 5 none [] = .ok sf1 ∧
      aggregateFeedbackMetrics [] "daily" 0 9 none sf1 = .ok sf2 ∧
      aggregateUserMetrics [] "daily" 0 5 none [] = .ok su1 ∧
      aggregateUserMetrics [] "daily" 0 9 none su1 = .ok su2 ∧
      lookupDoc sf1 { period := "daily", date := (0, 86399999).1, companyId := none } =
        some { body := feedbackMetricsOf [] (0, 86399999).1 (0, 86399999).2 none,
               calculatedAt := 5 } ∧
      lookupDoc sf2 { period := "daily", date := (0, 86399999).1, companyId := none } =
        some { body := feedbackMetricsOf [] (0, 86399999).1 (0, 86399999).2 none,
               calculatedAt := 9 } ∧
      lookupDoc su1 { period := "daily", date := (0, 86399999).1, companyId := none } =
        some { body := userMetricsOf [] (0, 86399999).1 (0, 86399999).2 none,
               calculatedAt := 5 } ∧
      lookupDoc su2 { period := "daily", date := (0, 86399999).1, companyId := none } =
        some { body := userMetricsOf [] (0, 86399999).1 (0, 86399999).2 none,
               calculatedAt := 9 } ∧
      countKey sf2 { period := "daily", date := (0, 86399999).1, companyId := none } = 1 ∧
      countKey su2 { period := "daily", date := (0, 86399999).1, companyId := none } = 1 ∧
      keysNodup sf2 ∧ keysNodup su2 :=
  aggregation_idempotent_upsert [] "daily" 0 5 9 none (0, 86399999) [] [] rfl rfl
    (by simp [keysNodup]) (by simp [keysNodup])

/-- Witness for triggerAggregation_never_accepted at a concrete valid-period
admin request. -/
theorem triggerAggregation_never_accepted_witness :
    (triggerAggregation { userRoles := ["admin"], period := some "daily" }).1 ≠
      TriggerResponse.accepted "daily" :=
  triggerAggregation_never_accepted.2 { userRoles := ["admin"], period := some "daily" } "daily"
